import Mathlib

/-!
Shallow embedding of the `WapiService` component of the w-api client
repository (source file: the service manager class extending EventEmitter).
Time is in milliseconds (`Date.now()` modelled as a `Nat` parameter);
the outbound HTTP transport is modelled as an oracle value passed to each
request; events emitted through the EventEmitter are collected in lists.
-/

namespace Wapi

/-- A JSON response payload, modelled loosely: the fields of the vendor
status object that the service reads (`connected`, `state`, `message`),
plus an opaque `body` tag so distinct payloads can be told apart. -/
structure Resp where
  connected : Bool := false
  state : Option String := none
  message : Option String := none
  body : String := ""
deriving DecidableEq, Repr

/-- JS `x || d` on a string-valued field: `undefined` and `""` are falsy. -/
def jsOrStr : Option String → String → String
  | none, d => d
  | some s, d => if s.isEmpty then d else s

/-- JS `x || d` on a number-valued option field: `undefined` and `0` are falsy. -/
def jsOrNat : Option Nat → Nat → Nat
  | none, d => d
  | some n, d => if n = 0 then d else n

/-- JS `String.prototype.toLowerCase()` on the method name, modelled as a
character-wise lowercase map. -/
def jsToLowerCase (s : String) : String := String.mk (s.data.map Char.toLower)

/-- JS falsiness of an optional string (`!this.instanceId`):
`undefined` and the empty string are falsy. -/
def strFalsy : Option String → Bool
  | none => true
  | some s => s.isEmpty

/-- One entry of the response cache: `{data, timestamp, expires}` as stored
by `_saveToCache`. -/
structure CacheEntry where
  data : Resp
  timestamp : Nat
  expires : Nat
deriving DecidableEq, Repr

/-- Model of `Map.get` on the cache, modelled as an association list in insertion
order (JS `Map` iteration order). -/
def mapGet (m : List (String × CacheEntry)) (k : String) : Option CacheEntry :=
  match m with
  | [] => none
  | (k', v') :: rest => if k' = k then some v' else mapGet rest k

/-- Model of `Map.set`: overwrite in place when the key exists, append otherwise. -/
def mapSet (m : List (String × CacheEntry)) (k : String) (v : CacheEntry) :
    List (String × CacheEntry) :=
  match m with
  | [] => [(k, v)]
  | (k', v') :: rest => if k' = k then (k, v) :: rest else (k', v') :: mapSet rest k v

/-- Model of `Map.delete`. -/
def mapDelete (m : List (String × CacheEntry)) (k : String) :
    List (String × CacheEntry) :=
  m.filter (fun p => p.1 != k)

/-- The errors thrown by `_makeRequest` / `_checkRateLimit`:
`{code: 429, resetAfter}` from the rate limiter, `{code: status, message,
details}` when the remote party responded with a failure status, and
`{code: 500, message, isConnectionError: true}` when no response arrived. -/
inductive WErr where
  | rateLimited (resetAfter : Int)
  | remote (code : Nat) (message : String) (details : Resp)
  | connection (message : String)
deriving DecidableEq, Repr

/-- The `code` field of each thrown error object. -/
def WErr.code : WErr → Nat
  | .rateLimited _ => 429
  | .remote c _ _ => c
  | .connection _ => 500

/-- The `isConnectionError` flag (present and `true` only on the
no-response error object). -/
def WErr.isConnectionError : WErr → Bool
  | .connection _ => true
  | _ => false

/-- Events emitted by the service (`this.emit(...)` calls relevant to the
request pipeline and the health poller). -/
inductive Event where
  | requestError (endpoint method : String)
  | connectedEv (st : Resp)
  | disconnectedEv (st : Resp)
  | healthCheck (st : Resp)
  | errorEv (e : WErr)
deriving DecidableEq, Repr

/-- The mutable state of a `WapiService` instance, together with the
configuration fixed by the constructor. -/
structure Service where
  cacheEnabled : Bool
  cacheTTL : Nat
  rateLimit : Nat
  cache : List (String × CacheEntry)
  requestCount : Nat
  requestTimestamps : List Nat
  connectionStatus : String
  connected : Bool
  connectionError : Option WErr
deriving DecidableEq, Repr

/-- Constructor options (`options` object; `none` models an absent field). -/
structure Options where
  instanceId : Option String := none
  apiToken : Option String := none
  cacheEnabled : Option Bool := none
  cacheTTL : Option Nat := none
  rateLimit : Option Nat := none
deriving DecidableEq, Repr

/-- The constructor: throws when `instanceId` or `apiToken` is falsy,
otherwise initialises configuration (`cacheEnabled` defaults to `true`
via an explicit `!== undefined` test; `cacheTTL` and `rateLimit` default
via `||`, so `0` also falls back) and empty internal state. -/
def construct (o : Options) : Except String Service :=
  if strFalsy o.instanceId || strFalsy o.apiToken then
    .error "W-API configuration requires instanceId and apiToken"
  else
    .ok { cacheEnabled := o.cacheEnabled.getD true
          cacheTTL := jsOrNat o.cacheTTL 60
          rateLimit := jsOrNat o.rateLimit 60
          cache := []
          requestCount := 0
          requestTimestamps := []
          connectionStatus := "disconnected"
          connected := false
          connectionError := none }

/-- The prune step of `_checkRateLimit`:
`this.requestTimestamps.filter(time => now - time < 60000)`. -/
def pruneWindow (ts : List Nat) (now : Nat) : List Nat :=
  ts.filter (fun (t : Nat) => decide ((now : Int) - (t : Int) < 60000))

/-- Model of `_checkRateLimit`: prune the window, then throw a 429 error with
`resetAfter = requestTimestamps[0] + 60000 - now` when the pruned length
reaches the configured limit.  Returns the service with the pruned window
and the thrown error, if any. -/
def checkRateLimit (s : Service) (now : Nat) : Service × Option WErr :=
  let pruned := pruneWindow s.requestTimestamps now
  let s' := { s with requestTimestamps := pruned }
  if pruned.length ≥ s.rateLimit then
    (s', some (.rateLimited ((pruned.headD 0 : Int) + 60000 - (now : Int))))
  else
    (s', none)

/-- The window update of `_trackRequest`: push `Date.now()`, then shift
off the oldest timestamp once if the window grew past the limit. -/
def trackWindow (ts : List Nat) (now : Nat) (limit : Nat) : List Nat :=
  let ts2 := ts ++ [now]
  if ts2.length > limit then ts2.tail else ts2

/-- Model of `_trackRequest`: increment `requestCount` and update the window. -/
def trackRequest (s : Service) (now : Nat) : Service :=
  { s with requestCount := s.requestCount + 1,
           requestTimestamps := trackWindow s.requestTimestamps now s.rateLimit }

/-- Model of `_saveToCache`: no-op when caching is disabled, otherwise store
`{data, timestamp: now, expires: now + cacheTTL * 1000}` under the key. -/
def saveToCache (s : Service) (now : Nat) (key : String) (data : Resp) : Service :=
  if !s.cacheEnabled then s
  else
    let entry : CacheEntry :=
      { data := data, timestamp := now, expires := now + s.cacheTTL * 1000 }
    { s with cache := mapSet s.cache key entry }

/-- Model of `_getFromCache`: `null` when caching is disabled or the key is absent;
when the entry's `expires` has strictly passed (`Date.now() > expires`),
delete it and return `null`; otherwise return the stored data. -/
def getFromCache (s : Service) (now : Nat) (key : String) : Service × Option Resp :=
  if !s.cacheEnabled then (s, none)
  else
    match mapGet s.cache key with
    | none => (s, none)
    | some c =>
        if now > c.expires then ({ s with cache := mapDelete s.cache key }, none)
        else (s, some c.data)

/-- The transport outcome of the single `axios` call: a success payload,
an error with a response (`error.response` present, carrying status and
body), or an error with no response (network/timeout). -/
inductive TransportResult where
  | success (bodyData : Resp)
  | httpError (status : Nat) (bodyData : Resp)
  | networkError (message : String)
deriving DecidableEq, Repr

/-- Outcome of the synchronous prefix of `_makeRequest` (everything before
the `await axios(...)`): the rate limiter threw, the cache answered, or
the request was admitted (tracked) and the transport call was launched,
remembering the cache key (if any) for the completion. -/
inductive SyncOutcome where
  | rejected (e : WErr)
  | cacheHit (v : Resp)
  | launched (cacheKey : Option String)
deriving DecidableEq, Repr

/-- The synchronous prefix of `_makeRequest`: check the rate limit (throws
429 before anything else), compute the cache key (only for GET when
caching is enabled), consult the cache unless `skipCache`, and on a miss
(or no key) track the request and launch the transport call. -/
def syncPhase (s : Service) (now : Nat) (endpoint method dataStr : String)
    (skipCache : Bool) : Service × SyncOutcome :=
  match checkRateLimit s now with
  | (s1, some e) => (s1, .rejected e)
  | (s1, none) =>
    let cacheKey : Option String :=
      if s1.cacheEnabled && jsToLowerCase method == "get" then
        some (endpoint ++ "-" ++ dataStr)
      else none
    match cacheKey, skipCache with
    | some key, false =>
      match getFromCache s1 now key with
      | (s2, some v) => (s2, .cacheHit v)
      | (s2, none) => (trackRequest s2 now, .launched (some key))
    | _, _ => (trackRequest s1 now, .launched cacheKey)

deriving instance DecidableEq for Except

/-- Result of one `_makeRequest` call: the returned value or thrown error,
the service state afterwards, the events emitted during the call, how many
transport calls were made (0 or 1 — there is no retry), and flags recording
whether the cache was consulted, written, or served the response. -/
structure MkResult where
  result : Except WErr Resp
  service : Service
  events : List Event
  transportCalls : Nat
  cacheLookedUp : Bool
  cacheStored : Bool
  servedFromCache : Bool
deriving DecidableEq, Repr

/-- The part of `_makeRequest` after the `await axios(...)` resolves or
rejects: on success cache the payload when a cache key exists and return
it; on an error with a response emit `request_error` and throw
`{code: status, message: body.message || 'API error', details: body}`;
on an error without a response emit `request_error` and throw
`{code: 500, message, isConnectionError: true}`. -/
def completePhase (s : Service) (now : Nat) (endpoint method : String)
    (cacheKey : Option String) (lookedUp : Bool) (tr : TransportResult) : MkResult :=
  match tr with
  | .success bodyData =>
    let s2 := match cacheKey with
      | some key => saveToCache s now key bodyData
      | none => s
    { result := .ok bodyData, service := s2, events := [],
      transportCalls := 1, cacheLookedUp := lookedUp,
      cacheStored := cacheKey.isSome, servedFromCache := false }
  | .httpError status bodyData =>
    { result := .error (.remote status (jsOrStr bodyData.message "API error") bodyData),
      service := s, events := [.requestError endpoint method],
      transportCalls := 1, cacheLookedUp := lookedUp,
      cacheStored := false, servedFromCache := false }
  | .networkError msg =>
    { result := .error (.connection msg),
      service := s, events := [.requestError endpoint method],
      transportCalls := 1, cacheLookedUp := lookedUp,
      cacheStored := false, servedFromCache := false }

/-- Model of `_makeRequest(endpoint, method, data, skipCache)`, with the outcome of the
single transport call supplied as the oracle `tr`. -/
def makeRequest (s : Service) (now : Nat) (endpoint method dataStr : String)
    (skipCache : Bool) (tr : TransportResult) : MkResult :=
  match syncPhase s now endpoint method dataStr skipCache with
  | (s1, .rejected e) =>
    { result := .error e, service := s1, events := [],
      transportCalls := 0, cacheLookedUp := false,
      cacheStored := false, servedFromCache := false }
  | (s1, .cacheHit v) =>
    { result := .ok v, service := s1, events := [],
      transportCalls := 0, cacheLookedUp := true,
      cacheStored := false, servedFromCache := true }
  | (s1, .launched ck) =>
    completePhase s1 now endpoint method ck (ck.isSome && !skipCache) tr

/-- Model of `getStatus()`: GET `/instance/device` with empty data and default
`skipCache = false`. -/
def getStatus (s : Service) (now : Nat) (tr : TransportResult) : MkResult :=
  makeRequest s now "/instance/device" "get" "\x7b\x7d" false tr

/-- The synchronous prefix of a `getStatus()` call (what runs before its
first `await` when several calls are issued back to back). -/
def getStatusSync (s : Service) (now : Nat) : Service × SyncOutcome :=
  syncPhase s now "/instance/device" "get" "\x7b\x7d" false

/-- Model of `getQR()`: GET `/instance/qr-code`, explicitly skipping the cache. -/
def getQR (s : Service) (now : Nat) (tr : TransportResult) : MkResult :=
  makeRequest s now "/instance/qr-code" "get" "\x7b\x7d" true tr

/-- Model of `sendText(phone, message, options)`: POST `/message/send-text`.  The
JSON body `{phone, message, options}` is passed pre-serialized as
`dataStr` (its contents only ever feed the cache key, which POST never
builds). -/
def sendText (s : Service) (now : Nat) (dataStr : String) (tr : TransportResult) :
    MkResult :=
  makeRequest s now "/message/send-text" "post" dataStr false tr

/-- Result of one health-check tick: the updated service, the events the
tick emitted (in order), and the underlying request result. -/
structure TickResult where
  service : Service
  events : List Event
  req : MkResult
deriving DecidableEq, Repr

/-- One tick of the `_startHealthCheck` interval callback: call
`getStatus()`; on success set `connected` and
`connectionStatus = status.state || 'unknown'`, emit `connected` on a
false-to-true flip or `disconnected` on a true-to-false flip, then always
emit `health_check`; on a thrown error record it in `connectionError` and
emit `error` (the catch swallows the exception, so the tick returns
normally either way). -/
def healthTick (s : Service) (now : Nat) (tr : TransportResult) : TickResult :=
  let r := getStatus s now tr
  match r.result with
  | .ok status =>
    let wasConnected := r.service.connected
    let s1 := { r.service with
      connected := status.connected,
      connectionStatus := jsOrStr status.state "unknown" }
    let transitions :=
      if !wasConnected && status.connected then [Event.connectedEv status]
      else if wasConnected && !status.connected then [Event.disconnectedEv status]
      else []
    { service := s1, events := r.events ++ transitions ++ [Event.healthCheck status],
      req := r }
  | .error e =>
    { service := { r.service with connectionError := some e },
      events := r.events ++ [Event.errorEv e], req := r }

/-- Run a sequence of health ticks, each given its `Date.now()` and its
transport outcome; collects all emitted events in order. -/
def runTicks (s : Service) (ticks : List (Nat × TransportResult)) :
    Service × List Event :=
  match ticks with
  | [] => (s, [])
  | (now, tr) :: rest =>
    let t := healthTick s now tr
    let (s', evs) := runTicks t.service rest
    (s', t.events ++ evs)

end Wapi

namespace Wapi

/-! ### Concrete services and payloads used in the scenario theorems -/

/-- The state produced by the constructor under default options
(`cacheEnabled = true`, `cacheTTL = 60`, `rateLimit = 60`). -/
def baseService : Service where
  cacheEnabled := true
  cacheTTL := 60
  rateLimit := 60
  cache := []
  requestCount := 0
  requestTimestamps := []
  connectionStatus := "disconnected"
  connected := false
  connectionError := none

/-- A freshly constructed service with `rateLimit = 2`, all other options
default. -/
def svcRL2 : Service := { baseService with rateLimit := 2 }

/-- A freshly constructed service with `cacheEnabled = false`. -/
def svcNoCache : Service := { baseService with cacheEnabled := false }

/-- A freshly constructed service with `cacheTTL = 1` second. -/
def svcTTL1 : Service := { baseService with cacheTTL := 1 }

/-- A status payload with `connected: false`. -/
def respDisc : Resp := { connected := false, state := some "disconnected" }

/-- A status payload with `connected: true`. -/
def respConn : Resp := { connected := true, state := some "connected" }

lemma construct_default :
    construct { instanceId := some "id", apiToken := some "tok" } = .ok baseService := rfl

lemma construct_rl2 :
    construct { instanceId := some "id", apiToken := some "tok", rateLimit := some 2 } =
      .ok svcRL2 := rfl

lemma construct_nocache :
    construct
      { instanceId := some "id", apiToken := some "tok", cacheEnabled := some false } =
      .ok svcNoCache := rfl

lemma construct_ttl1 :
    construct { instanceId := some "id", apiToken := some "tok", cacheTTL := some 1 } =
      .ok svcTTL1 := rfl

/-! ### Helper lemmas -/

lemma mapGet_mapSet_self (m : List (String × CacheEntry)) (k : String) (v : CacheEntry) :
    mapGet (mapSet m k v) k = some v := by
  induction m with
  | nil => simp [mapSet, mapGet]
  | cons p rest ih =>
    by_cases h : p.1 = k
    · simp [mapSet, mapGet, h]
    · simp [mapSet, mapGet, h, ih]

lemma mapGet_mapDelete_self (m : List (String × CacheEntry)) (k : String) :
    mapGet (mapDelete m k) k = none := by
  induction m with
  | nil => simp [mapDelete, mapGet]
  | cons p rest ih =>
    by_cases h : p.1 = k
    · simpa [mapDelete, mapGet, h] using ih
    · simpa [mapDelete, mapGet, h] using ih

lemma checkRateLimit_reject (s : Service) (now : Nat)
    (h : (pruneWindow s.requestTimestamps now).length ≥ s.rateLimit) :
    checkRateLimit s now =
      ({ s with requestTimestamps := pruneWindow s.requestTimestamps now },
       some (.rateLimited
         (((pruneWindow s.requestTimestamps now).headD 0 : Int) + 60000 - (now : Int)))) := by
  simp only [checkRateLimit]
  rw [if_pos h]

lemma checkRateLimit_pass (s : Service) (now : Nat)
    (h : (pruneWindow s.requestTimestamps now).length < s.rateLimit) :
    checkRateLimit s now =
      ({ s with requestTimestamps := pruneWindow s.requestTimestamps now }, none) := by
  simp only [checkRateLimit]
  rw [if_neg (by omega)]

end Wapi
namespace Wapi

lemma checkRateLimit_fst (s : Service) (now : Nat) :
    (checkRateLimit s now).1 =
      { s with requestTimestamps := pruneWindow s.requestTimestamps now } := by
  simp only [checkRateLimit]
  split <;> rfl

lemma getFromCache_disabled (s : Service) (now : Nat) (key : String)
    (h : s.cacheEnabled = false) : getFromCache s now key = (s, none) := by
  simp [getFromCache, h]

lemma getFromCache_absent (s : Service) (now : Nat) (key : String)
    (h : s.cacheEnabled = true) (hg : mapGet s.cache key = none) :
    getFromCache s now key = (s, none) := by
  simp [getFromCache, h, hg]

lemma getFromCache_hit (s : Service) (now : Nat) (key : String) (c : CacheEntry)
    (h : s.cacheEnabled = true) (hg : mapGet s.cache key = some c)
    (hex : ¬ now > c.expires) :
    getFromCache s now key = (s, some c.data) := by
  simp [getFromCache, h, hg, hex]

lemma getFromCache_expired (s : Service) (now : Nat) (key : String) (c : CacheEntry)
    (h : s.cacheEnabled = true) (hg : mapGet s.cache key = some c)
    (hex : now > c.expires) :
    getFromCache s now key = ({ s with cache := mapDelete s.cache key }, none) := by
  simp [getFromCache, h, hg, hex]

end Wapi
namespace Wapi

lemma trackRequest_frame (s : Service) (now : Nat) :
    (trackRequest s now).connected = s.connected ∧
    (trackRequest s now).connectionStatus = s.connectionStatus ∧
    (trackRequest s now).connectionError = s.connectionError ∧
    (trackRequest s now).cache = s.cache ∧
    (trackRequest s now).cacheEnabled = s.cacheEnabled ∧
    (trackRequest s now).cacheTTL = s.cacheTTL ∧
    (trackRequest s now).rateLimit = s.rateLimit := by
  simp [trackRequest]

lemma saveToCache_frame (s : Service) (now : Nat) (key : String) (data : Resp) :
    (saveToCache s now key data).connected = s.connected ∧
    (saveToCache s now key data).connectionStatus = s.connectionStatus ∧
    (saveToCache s now key data).connectionError = s.connectionError ∧
    (saveToCache s now key data).requestCount = s.requestCount ∧
    (saveToCache s now key data).requestTimestamps = s.requestTimestamps ∧
    (saveToCache s now key data).cacheEnabled = s.cacheEnabled ∧
    (saveToCache s now key data).rateLimit = s.rateLimit := by
  unfold saveToCache
  split <;> simp

lemma completePhase_calls (s : Service) (now : Nat) (endpoint method : String)
    (ck : Option String) (lu : Bool) (tr : TransportResult) :
    (completePhase s now endpoint method ck lu tr).transportCalls = 1 := by
  cases tr <;> rfl

lemma completePhase_frame (s : Service) (now : Nat) (endpoint method : String)
    (ck : Option String) (lu : Bool) (tr : TransportResult) :
    (completePhase s now endpoint method ck lu tr).service.requestTimestamps =
      s.requestTimestamps ∧
    (completePhase s now endpoint method ck lu tr).service.requestCount = s.requestCount ∧
    (completePhase s now endpoint method ck lu tr).service.connected = s.connected ∧
    (completePhase s now endpoint method ck lu tr).service.connectionStatus =
      s.connectionStatus ∧
    (completePhase s now endpoint method ck lu tr).service.connectionError =
      s.connectionError ∧
    (completePhase s now endpoint method ck lu tr).service.rateLimit = s.rateLimit := by
  cases tr <;> cases ck <;>
    simp [completePhase, saveToCache_frame]

lemma completePhase_nokey_cache (s : Service) (now : Nat) (endpoint method : String)
    (lu : Bool) (tr : TransportResult) :
    (completePhase s now endpoint method none lu tr).service.cache = s.cache := by
  cases tr <;> rfl

end Wapi
namespace Wapi

lemma makeRequest_rejected (s : Service) (now : Nat) (endpoint method dataStr : String)
    (skipCache : Bool) (tr : TransportResult)
    (h : (pruneWindow s.requestTimestamps now).length ≥ s.rateLimit) :
    makeRequest s now endpoint method dataStr skipCache tr =
      { result := .error (.rateLimited
          (((pruneWindow s.requestTimestamps now).headD 0 : Int) + 60000 - (now : Int))),
        service := { s with requestTimestamps := pruneWindow s.requestTimestamps now },
        events := [], transportCalls := 0, cacheLookedUp := false,
        cacheStored := false, servedFromCache := false } := by
  simp [makeRequest, syncPhase, checkRateLimit_reject s now h]

lemma makeRequest_nokey (s : Service) (now : Nat) (endpoint method dataStr : String)
    (skipCache : Bool) (tr : TransportResult)
    (h : (pruneWindow s.requestTimestamps now).length < s.rateLimit)
    (hk : (s.cacheEnabled && (jsToLowerCase method == "get")) = false) :
    makeRequest s now endpoint method dataStr skipCache tr =
      completePhase
        (trackRequest { s with requestTimestamps := pruneWindow s.requestTimestamps now } now)
        now endpoint method none false tr := by
  cases skipCache <;>
    simp [makeRequest, syncPhase, checkRateLimit_pass s now h, hk]

lemma makeRequest_skip (s : Service) (now : Nat) (endpoint method dataStr : String)
    (tr : TransportResult)
    (h : (pruneWindow s.requestTimestamps now).length < s.rateLimit)
    (hk : (s.cacheEnabled && (jsToLowerCase method == "get")) = true) :
    makeRequest s now endpoint method dataStr true tr =
      completePhase
        (trackRequest { s with requestTimestamps := pruneWindow s.requestTimestamps now } now)
        now endpoint method (some (endpoint ++ "-" ++ dataStr)) false tr := by
  simp [makeRequest, syncPhase, checkRateLimit_pass s now h, hk]

lemma makeRequest_cacheHit (s : Service) (now : Nat) (endpoint method dataStr : String)
    (tr : TransportResult) (c : CacheEntry)
    (h : (pruneWindow s.requestTimestamps now).length < s.rateLimit)
    (hk : (s.cacheEnabled && (jsToLowerCase method == "get")) = true)
    (hg : mapGet s.cache (endpoint ++ "-" ++ dataStr) = some c)
    (hex : ¬ now > c.expires) :
    makeRequest s now endpoint method dataStr false tr =
      { result := .ok c.data,
        service := { s with requestTimestamps := pruneWindow s.requestTimestamps now },
        events := [], transportCalls := 0, cacheLookedUp := true,
        cacheStored := false, servedFromCache := true } := by
  have hce : s.cacheEnabled = true := by
    cases hce : s.cacheEnabled <;> simp [hce] at hk ⊢
  have hmg : jsToLowerCase method = "get" := by simpa [hce] using hk
  simp [makeRequest, syncPhase, checkRateLimit_pass s now h, hk, hmg,
    getFromCache, hce, hg, hex]

lemma makeRequest_cacheMissAbsent (s : Service) (now : Nat)
    (endpoint method dataStr : String) (tr : TransportResult)
    (h : (pruneWindow s.requestTimestamps now).length < s.rateLimit)
    (hk : (s.cacheEnabled && (jsToLowerCase method == "get")) = true)
    (hg : mapGet s.cache (endpoint ++ "-" ++ dataStr) = none) :
    makeRequest s now endpoint method dataStr false tr =
      completePhase
        (trackRequest { s with requestTimestamps := pruneWindow s.requestTimestamps now } now)
        now endpoint method (some (endpoint ++ "-" ++ dataStr)) true tr := by
  have hce : s.cacheEnabled = true := by
    cases hce : s.cacheEnabled <;> simp [hce] at hk ⊢
  have hmg : jsToLowerCase method = "get" := by simpa [hce] using hk
  simp [makeRequest, syncPhase, checkRateLimit_pass s now h, hk, hmg,
    getFromCache, hce, hg]

lemma makeRequest_cacheMissExpired (s : Service) (now : Nat)
    (endpoint method dataStr : String) (tr : TransportResult) (c : CacheEntry)
    (h : (pruneWindow s.requestTimestamps now).length < s.rateLimit)
    (hk : (s.cacheEnabled && (jsToLowerCase method == "get")) = true)
    (hg : mapGet s.cache (endpoint ++ "-" ++ dataStr) = some c)
    (hex : now > c.expires) :
    makeRequest s now endpoint method dataStr false tr =
      completePhase
        (trackRequest
          { s with requestTimestamps := pruneWindow s.requestTimestamps now,
                   cache := mapDelete s.cache (endpoint ++ "-" ++ dataStr) } now)
        now endpoint method (some (endpoint ++ "-" ++ dataStr)) true tr := by
  have hce : s.cacheEnabled = true := by
    cases hce : s.cacheEnabled <;> simp [hce] at hk ⊢
  have hmg : jsToLowerCase method = "get" := by simpa [hce] using hk
  simp [makeRequest, syncPhase, checkRateLimit_pass s now h, hk, hmg,
    getFromCache, hce, hg, hex]

end Wapi
namespace Wapi

lemma makeRequest_launched_or (s : Service) (now : Nat)
    (endpoint method dataStr : String) (skipCache : Bool) (tr : TransportResult)
    (h : (pruneWindow s.requestTimestamps now).length < s.rateLimit) :
    (makeRequest s now endpoint method dataStr skipCache tr).servedFromCache = true ∨
    (makeRequest s now endpoint method dataStr skipCache tr).transportCalls = 1 := by
  by_cases hk : (s.cacheEnabled && (jsToLowerCase method == "get")) = true
  · cases skipCache with
    | true =>
      right
      rw [makeRequest_skip s now endpoint method dataStr tr h hk]
      exact completePhase_calls ..
    | false =>
      rcases hg : mapGet s.cache (endpoint ++ "-" ++ dataStr) with _ | c
      · right
        rw [makeRequest_cacheMissAbsent s now endpoint method dataStr tr h hk hg]
        exact completePhase_calls ..
      · by_cases hex : now > c.expires
        · right
          rw [makeRequest_cacheMissExpired s now endpoint method dataStr tr c h hk hg hex]
          exact completePhase_calls ..
        · left
          rw [makeRequest_cacheHit s now endpoint method dataStr tr c h hk hg hex]
  · right
    rw [makeRequest_nokey s now endpoint method dataStr skipCache tr h
      (by simpa using hk)]
    exact completePhase_calls ..

lemma makeRequest_transport_shape (s : Service) (now : Nat)
    (endpoint method dataStr : String) (skipCache : Bool) (tr : TransportResult)
    (h : (makeRequest s now endpoint method dataStr skipCache tr).transportCalls = 1) :
    ∃ s1 ck lu, makeRequest s now endpoint method dataStr skipCache tr =
      completePhase s1 now endpoint method ck lu tr := by
  rcases hsp : syncPhase s now endpoint method dataStr skipCache with ⟨s1, o⟩
  cases o with
  | rejected e => simp [makeRequest, hsp] at h
  | cacheHit v => simp [makeRequest, hsp] at h
  | launched ck => exact ⟨s1, ck, ck.isSome && !skipCache, by simp [makeRequest, hsp]⟩

/-- C1: on every `_makeRequest` call the rate limiter first prunes the
window to the timestamps younger than 60,000 ms; if the pruned count has
reached the configured ceiling the call throws the rate-limit error — its
`code` field is 429 and its `resetAfter` is the (positive) number of
milliseconds until the oldest retained timestamp ages out of the window
(`requestTimestamps[0] + 60000 - now`) — and the call makes no transport
call, never consults the cache, emits no event and leaves the cache map
untouched; otherwise the call proceeds (it is served from the cache or
performs exactly one transport call). -/
theorem claim_C1_rate_limiter_gate (s : Service) (now : Nat)
    (endpoint method dataStr : String) (skipCache : Bool) (tr : TransportResult)
    (hlim : 0 < s.rateLimit) :
    ((pruneWindow s.requestTimestamps now).length ≥ s.rateLimit →
      makeRequest s now endpoint method dataStr skipCache tr =
        { result := .error (.rateLimited
            (((pruneWindow s.requestTimestamps now).headD 0 : Int) + 60000 - (now : Int))),
          service := { s with requestTimestamps := pruneWindow s.requestTimestamps now },
          events := [], transportCalls := 0, cacheLookedUp := false,
          cacheStored := false, servedFromCache := false } ∧
      (WErr.rateLimited
        (((pruneWindow s.requestTimestamps now).headD 0 : Int) + 60000 - (now : Int))).code
        = 429 ∧
      0 < ((pruneWindow s.requestTimestamps now).headD 0 : Int) + 60000 - (now : Int)) ∧
    ((pruneWindow s.requestTimestamps now).length < s.rateLimit →
      (makeRequest s now endpoint method dataStr skipCache tr).servedFromCache = true ∨
      (makeRequest s now endpoint method dataStr skipCache tr).transportCalls = 1) := by
  constructor
  · intro hge
    refine ⟨makeRequest_rejected s now endpoint method dataStr skipCache tr hge, rfl, ?_⟩
    have hne : pruneWindow s.requestTimestamps now ≠ [] := by
      intro hnil
      rw [hnil] at hge
      simp at hge
      omega
    rcases hcons : pruneWindow s.requestTimestamps now with _ | ⟨a, l⟩
    · exact absurd hcons hne
    · have ha : a ∈ pruneWindow s.requestTimestamps now := by
        rw [hcons]; exact List.mem_cons_self a l
      have hpred := List.of_mem_filter ha
      have : (now : Int) - (a : Int) < 60000 := by simpa using hpred
      simp only [hcons, List.headD_cons]
      omega
  · exact makeRequest_launched_or s now endpoint method dataStr skipCache tr

/-- Witness for C1 at a concrete input: a constructed service with
`rateLimit = 2` and two timestamps already in the window rejects the next
call with the 429 error and `resetAfter = 60000 > 0`. -/
theorem claim_C1_rate_limiter_gate_witness :
    (makeRequest { svcRL2 with requestTimestamps := [0, 0] } 0 "/instance/device" "get"
        "\x7b\x7d" false (.success respConn)).result = .error (.rateLimited 60000) ∧
    (0 : Int) < 60000 := by
  have h := claim_C1_rate_limiter_gate { svcRL2 with requestTimestamps := [0, 0] } 0
    "/instance/device" "get" "\x7b\x7d" false (.success respConn) (by decide)
  refine ⟨?_, by decide⟩
  rw [(h.1 (by decide)).1]
  decide

end Wapi
namespace Wapi

lemma makeRequest_conn_frame (s : Service) (now : Nat) (endpoint method dataStr : String)
    (skipCache : Bool) (tr : TransportResult) :
    (makeRequest s now endpoint method dataStr skipCache tr).service.connected
      = s.connected ∧
    (makeRequest s now endpoint method dataStr skipCache tr).service.connectionStatus
      = s.connectionStatus ∧
    (makeRequest s now endpoint method dataStr skipCache tr).service.connectionError
      = s.connectionError := by
  by_cases h : (pruneWindow s.requestTimestamps now).length ≥ s.rateLimit
  · rw [makeRequest_rejected s now endpoint method dataStr skipCache tr h]
    exact ⟨rfl, rfl, rfl⟩
  · have h' : (pruneWindow s.requestTimestamps now).length < s.rateLimit := by omega
    have frame : ∀ (s2 : Service) (ck : Option String) (lu : Bool),
        s2.connected = s.connected → s2.connectionStatus = s.connectionStatus →
        s2.connectionError = s.connectionError →
        (completePhase (trackRequest s2 now) now endpoint method ck lu tr).service.connected
          = s.connected ∧
        (completePhase (trackRequest s2 now) now endpoint method ck lu tr).service.connectionStatus
          = s.connectionStatus ∧
        (completePhase (trackRequest s2 now) now endpoint method ck lu tr).service.connectionError
          = s.connectionError := by
      intro s2 ck lu hc hst herr
      obtain ⟨-, -, c1, c2, c3, -⟩ :=
        completePhase_frame (trackRequest s2 now) now endpoint method ck lu tr
      obtain ⟨t1, t2, t3, -, -, -, -⟩ := trackRequest_frame s2 now
      exact ⟨by rw [c1, t1, hc], by rw [c2, t2, hst], by rw [c3, t3, herr]⟩
    by_cases hk : (s.cacheEnabled && (jsToLowerCase method == "get")) = true
    · cases skipCache with
      | true =>
        rw [makeRequest_skip s now endpoint method dataStr tr h' hk]
        exact frame _ _ _ rfl rfl rfl
      | false =>
        rcases hg : mapGet s.cache (endpoint ++ "-" ++ dataStr) with _ | c
        · rw [makeRequest_cacheMissAbsent s now endpoint method dataStr tr h' hk hg]
          exact frame _ _ _ rfl rfl rfl
        · by_cases hex : now > c.expires
          · rw [makeRequest_cacheMissExpired s now endpoint method dataStr tr c h' hk hg hex]
            exact frame _ _ _ rfl rfl rfl
          · rw [makeRequest_cacheHit s now endpoint method dataStr tr c h' hk hg hex]
            exact ⟨rfl, rfl, rfl⟩
    · rw [makeRequest_nokey s now endpoint method dataStr skipCache tr h'
        (by simpa using hk)]
      exact frame _ _ _ rfl rfl rfl

lemma makeRequest_ok_events (s : Service) (now : Nat) (endpoint method dataStr : String)
    (skipCache : Bool) (tr : TransportResult) (v : Resp)
    (h : (makeRequest s now endpoint method dataStr skipCache tr).result = .ok v) :
    (makeRequest s now endpoint method dataStr skipCache tr).events = [] := by
  rcases hsp : syncPhase s now endpoint method dataStr skipCache with ⟨s1, o⟩
  cases o with
  | rejected e => simp [makeRequest, hsp]
  | cacheHit w => simp [makeRequest, hsp]
  | launched ck => cases tr <;> simp_all [makeRequest, hsp, completePhase]

lemma trackWindow_length_le (ts : List Nat) (now limit : Nat) (h : ts.length < limit) :
    (trackWindow ts now limit).length ≤ limit := by
  simp only [trackWindow]
  split <;> simp <;> omega

lemma healthTick_req (s : Service) (now : Nat) (tr : TransportResult) :
    (healthTick s now tr).req = getStatus s now tr := by
  simp only [healthTick]
  cases hE : (getStatus s now tr).result <;> simp

end Wapi
namespace Wapi

/-- Counterexample to C2 as stated: with `cacheTTL = 1` second, a value
stored at t = 0 ms is looked up at t = 1000 ms — exactly `ttl` seconds
have elapsed since the store — yet the lookup still returns the value and
the entry is still in the backing map, because `_getFromCache` only treats
an entry as expired when `Date.now() > expires` holds strictly. -/
theorem claim_C2_cache_expiry_cex :
    (getFromCache (saveToCache svcTTL1 0 "k" respConn) 1000 "k").2 = some respConn ∧
    mapGet (getFromCache (saveToCache svcTTL1 0 "k" respConn) 1000 "k").1.cache "k" =
      some { data := respConn, timestamp := 0, expires := 1000 } ∧
    1000 = svcTTL1.cacheTTL * 1000 := by
  decide

/-- C2 (amended): with caching enabled, `store(k, v, ttl)` followed by a
lookup of `k` at any time up to and including `ttl` seconds later (in
particular immediately) returns `v`; a lookup STRICTLY more than `ttl`
seconds after the store returns a miss and removes the entry from the
backing map (lazy expiry — no background sweep). -/
theorem claim_C2_cache_roundtrip (s : Service) (k : String) (v : Resp) (t t2 : Nat)
    (hc : s.cacheEnabled = true) :
    (t2 ≤ t + s.cacheTTL * 1000 →
      (getFromCache (saveToCache s t k v) t2 k).2 = some v) ∧
    (t + s.cacheTTL * 1000 < t2 →
      (getFromCache (saveToCache s t k v) t2 k).2 = none ∧
      mapGet (getFromCache (saveToCache s t k v) t2 k).1.cache k = none) := by
  have hsv : saveToCache s t k v =
      { s with cache := mapSet s.cache k ⟨v, t, t + s.cacheTTL * 1000⟩ } := by
    simp [saveToCache, hc]
  constructor
  · intro hle
    have hhit := getFromCache_hit
      { s with cache := mapSet s.cache k ⟨v, t, t + s.cacheTTL * 1000⟩ }
      t2 k ⟨v, t, t + s.cacheTTL * 1000⟩
      (by simpa using hc)
      (by simpa using mapGet_mapSet_self s.cache k ⟨v, t, t + s.cacheTTL * 1000⟩)
      (by show ¬ t2 > t + s.cacheTTL * 1000; omega)
    rw [hsv, hhit]
  · intro hlt
    have hexp := getFromCache_expired
      { s with cache := mapSet s.cache k ⟨v, t, t + s.cacheTTL * 1000⟩ }
      t2 k ⟨v, t, t + s.cacheTTL * 1000⟩
      (by simpa using hc)
      (by simpa using mapGet_mapSet_self s.cache k ⟨v, t, t + s.cacheTTL * 1000⟩)
      (by show t2 > t + s.cacheTTL * 1000; omega)
    rw [hsv, hexp]
    exact ⟨rfl, by
      simpa using mapGet_mapDelete_self
        (mapSet s.cache k ⟨v, t, t + s.cacheTTL * 1000⟩) k⟩

/-- Witness for the amended C2: concrete round trip with `cacheTTL = 1`:
an immediate lookup returns the value, a lookup at 1001 ms misses. -/
theorem claim_C2_cache_roundtrip_witness :
    (getFromCache (saveToCache svcTTL1 0 "k" respConn) 0 "k").2 = some respConn ∧
    (getFromCache (saveToCache svcTTL1 0 "k" respConn) 1001 "k").2 = none :=
  ⟨(claim_C2_cache_roundtrip svcTTL1 "k" respConn 0 0 (by decide)).1 (by decide),
   ((claim_C2_cache_roundtrip svcTTL1 "k" respConn 0 1001 (by decide)).2 (by decide)).1⟩

end Wapi
namespace Wapi

/-- C3: on every successful health-poll tick the poller sets the connected
flag from the fetched status and emits a `connected` event exactly on a
false-to-true flip, a `disconnected` event exactly on a true-to-false
flip, and a `health_check` event on every successful tick; in particular
the scripted status sequence
`[disconnected, disconnected, connected, connected, disconnected]`
(one tick per minute) produces exactly two transition events — `connected`
after tick 3 and `disconnected` after tick 5 — plus one `health_check`
per tick. -/
theorem claim_C3_health_transition_events :
    (∀ (s : Service) (now : Nat) (tr : TransportResult) (st : Resp),
      (healthTick s now tr).req.result = .ok st →
      (healthTick s now tr).service.connected = st.connected ∧
      (healthTick s now tr).events =
        (if s.connected = false ∧ st.connected = true then [Event.connectedEv st]
         else if s.connected = true ∧ st.connected = false then [Event.disconnectedEv st]
         else []) ++ [Event.healthCheck st]) ∧
    (runTicks svcNoCache
      [(60000, .success respDisc), (120000, .success respDisc),
       (180000, .success respConn), (240000, .success respConn),
       (300000, .success respDisc)]).2 =
      [Event.healthCheck respDisc, Event.healthCheck respDisc,
       Event.connectedEv respConn, Event.healthCheck respConn,
       Event.healthCheck respConn,
       Event.disconnectedEv respDisc, Event.healthCheck respDisc] := by
  constructor
  · intro s now tr st hok
    rw [healthTick_req s now tr] at hok
    obtain ⟨hc, hst, -⟩ :=
      makeRequest_conn_frame s now "/instance/device" "get" "\x7b\x7d" false tr
    have hev := makeRequest_ok_events s now "/instance/device" "get" "\x7b\x7d" false tr st hok
    constructor
    · simp only [healthTick]
      rw [show (getStatus s now tr).result = Except.ok st from hok]
    · simp only [healthTick]
      rw [show (getStatus s now tr).result = Except.ok st from hok]
      have hc' : (getStatus s now tr).service.connected = s.connected := hc
      have hev' : (getStatus s now tr).events = [] := hev
      rw [hc', hev']
      cases hsc : s.connected <;> cases hstc : st.connected <;> simp [hsc, hstc]
  · decide

/-- Witness for C3 at a concrete tick: a disconnected service that fetches
a connected status flips the flag and emits `connected` then
`health_check`. -/
theorem claim_C3_health_transition_events_witness :
    (healthTick svcNoCache 0 (.success respConn)).service.connected = true ∧
    (healthTick svcNoCache 0 (.success respConn)).events =
      [Event.connectedEv respConn, Event.healthCheck respConn] := by
  have h := claim_C3_health_transition_events.1 svcNoCache 0 (.success respConn) respConn
    (by decide)
  exact ⟨h.1, by rw [h.2]; decide⟩

end Wapi
namespace Wapi

/-- C4: a non-GET request never consults the cache, is never served from
it, never stores into it, and leaves the cache map unchanged — even when
caching is enabled; in particular `sendText` (POST `/message/send-text`)
leaves the cache untouched. -/
theorem claim_C4_writes_bypass_cache :
    (∀ (s : Service) (now : Nat) (endpoint method dataStr : String) (skipCache : Bool)
       (tr : TransportResult), jsToLowerCase method ≠ "get" →
      (makeRequest s now endpoint method dataStr skipCache tr).cacheLookedUp = false ∧
      (makeRequest s now endpoint method dataStr skipCache tr).servedFromCache = false ∧
      (makeRequest s now endpoint method dataStr skipCache tr).cacheStored = false ∧
      (makeRequest s now endpoint method dataStr skipCache tr).service.cache = s.cache) ∧
    (∀ (s : Service) (now : Nat) (dataStr : String) (tr : TransportResult),
      (sendText s now dataStr tr).servedFromCache = false ∧
      (sendText s now dataStr tr).service.cache = s.cache) := by
  have main : ∀ (s : Service) (now : Nat) (endpoint method dataStr : String)
      (skipCache : Bool) (tr : TransportResult), jsToLowerCase method ≠ "get" →
      (makeRequest s now endpoint method dataStr skipCache tr).cacheLookedUp = false ∧
      (makeRequest s now endpoint method dataStr skipCache tr).servedFromCache = false ∧
      (makeRequest s now endpoint method dataStr skipCache tr).cacheStored = false ∧
      (makeRequest s now endpoint method dataStr skipCache tr).service.cache = s.cache := by
    intro s now endpoint method dataStr skipCache tr hmethod
    have hk : (s.cacheEnabled && (jsToLowerCase method == "get")) = false := by
      simp [hmethod]
    by_cases h : (pruneWindow s.requestTimestamps now).length ≥ s.rateLimit
    · rw [makeRequest_rejected s now endpoint method dataStr skipCache tr h]
      exact ⟨rfl, rfl, rfl, rfl⟩
    · have h' : (pruneWindow s.requestTimestamps now).length < s.rateLimit := by omega
      rw [makeRequest_nokey s now endpoint method dataStr skipCache tr h' hk]
      cases tr <;>
        simp [completePhase, trackRequest]
  refine ⟨main, fun s now dataStr tr => ?_⟩
  have h := main s now "/message/send-text" "post" dataStr false tr (by decide)
  exact ⟨h.2.1, h.2.2.2⟩

/-- Witness for C4: a concrete POST (send-text) on a cache-enabled service
is not served from the cache and leaves the (empty) cache map unchanged. -/
theorem claim_C4_writes_bypass_cache_witness :
    (makeRequest baseService 0 "/message/send-text" "post" "body" false
        (.success respConn)).servedFromCache = false ∧
    (makeRequest baseService 0 "/message/send-text" "post" "body" false
        (.success respConn)).service.cache = baseService.cache := by
  have h := claim_C4_writes_bypass_cache.1 baseService 0 "/message/send-text" "post"
    "body" false (.success respConn) (by decide)
  exact ⟨h.2.1, h.2.2.2⟩

/-- C5: `_makeRequest` performs at most one transport call per invocation
(it never retries); when the single transport call fails with a response
(`error.response` present) the call throws the remote error carrying that
status code and response body and emits exactly one `request_error` event;
when it fails with no response it throws the connection error carrying the
message (its `isConnectionError` flag set) and emits exactly one
`request_error` event. -/
theorem claim_C5_transport_failure (s : Service) (now : Nat)
    (endpoint method dataStr : String) (skipCache : Bool) :
    (∀ tr, (makeRequest s now endpoint method dataStr skipCache tr).transportCalls ≤ 1) ∧
    (∀ (code : Nat) (bodyData : Resp),
      (makeRequest s now endpoint method dataStr skipCache
          (.httpError code bodyData)).transportCalls = 1 →
      (makeRequest s now endpoint method dataStr skipCache
          (.httpError code bodyData)).result =
        .error (.remote code (jsOrStr bodyData.message "API error") bodyData) ∧
      (makeRequest s now endpoint method dataStr skipCache
          (.httpError code bodyData)).events = [Event.requestError endpoint method] ∧
      (WErr.remote code (jsOrStr bodyData.message "API error") bodyData).code = code) ∧
    (∀ (msg : String),
      (makeRequest s now endpoint method dataStr skipCache
          (.networkError msg)).transportCalls = 1 →
      (makeRequest s now endpoint method dataStr skipCache
          (.networkError msg)).result = .error (.connection msg) ∧
      (makeRequest s now endpoint method dataStr skipCache
          (.networkError msg)).events = [Event.requestError endpoint method] ∧
      (WErr.connection msg).isConnectionError = true ∧
      (WErr.connection msg).code = 500) := by
  refine ⟨?_, ?_, ?_⟩
  · intro tr
    rcases hsp : syncPhase s now endpoint method dataStr skipCache with ⟨s1, o⟩
    cases o with
    | rejected e => simp [makeRequest, hsp]
    | cacheHit v => simp [makeRequest, hsp]
    | launched ck =>
      have : (makeRequest s now endpoint method dataStr skipCache tr).transportCalls = 1 := by
        simp [makeRequest, hsp, completePhase_calls]
      omega
  · intro code bodyData h1
    obtain ⟨s1, ck, lu, heq⟩ :=
      makeRequest_transport_shape s now endpoint method dataStr skipCache
        (.httpError code bodyData) h1
    rw [heq]
    exact ⟨rfl, rfl, rfl⟩
  · intro msg h1
    obtain ⟨s1, ck, lu, heq⟩ :=
      makeRequest_transport_shape s now endpoint method dataStr skipCache
        (.networkError msg) h1
    rw [heq]
    exact ⟨rfl, rfl, rfl, rfl⟩

/-- Witness for C5: on a cache-disabled service an HTTP 401 failure yields
the remote error with code 401 and the response body, and exactly one
`request_error` event. -/
theorem claim_C5_transport_failure_witness :
    (makeRequest svcNoCache 0 "/instance/device" "get" "\x7b\x7d" false
        (.httpError 401 { body := "unauthorized" })).result =
      .error (.remote 401 "API error" { body := "unauthorized" }) ∧
    (makeRequest svcNoCache 0 "/instance/device" "get" "\x7b\x7d" false
        (.httpError 401 { body := "unauthorized" })).events =
      [Event.requestError "/instance/device" "get"] := by
  have h := (claim_C5_transport_failure svcNoCache 0 "/instance/device" "get" "\x7b\x7d"
    false).2.1 401 { body := "unauthorized" } (by decide)
  exact ⟨h.1, h.2.1⟩

end Wapi
namespace Wapi

/-- First `getStatus()` of the C6 burst: its synchronous prefix runs
against the fresh `rateLimit = 2` service. -/
def burst1 : Service × SyncOutcome := getStatusSync svcRL2 0

/-- Second `getStatus()` of the burst, issued before any response has
arrived (so the cache is still empty and nothing has completed). -/
def burst2 : Service × SyncOutcome := getStatusSync burst1.1 0

/-- Third `getStatus()` of the burst. -/
def burst3 : Service × SyncOutcome := getStatusSync burst2.1 0

/-- C6: on a service constructed with `rateLimit = 2` (other options
default), three `getStatus()` calls issued in immediate succession — their
synchronous prefixes run back to back before any transport response
resolves, which is how a JS event loop executes three un-awaited calls —
admit the first two (each launches its transport call, whose success
completion returns the payload) and reject the third with the 429
rate-limit error carrying `resetAfter = 60000`. -/
theorem claim_C6_third_call_rate_limited :
    construct { instanceId := some "id", apiToken := some "tok", rateLimit := some 2 } =
      .ok svcRL2 ∧
    burst1.2 = .launched (some "/instance/device-\x7b\x7d") ∧
    burst2.2 = .launched (some "/instance/device-\x7b\x7d") ∧
    burst3.2 = .rejected (.rateLimited 60000) ∧
    (0 : Int) < 60000 ∧
    (∀ (s1 : Service) (ck : Option String) (lu : Bool) (r0 : Resp),
      (completePhase s1 0 "/instance/device" "get" ck lu (.success r0)).result = .ok r0) := by
  refine ⟨rfl, by decide, by decide, by decide, by decide, fun s1 ck lu r0 => ?_⟩
  cases ck <;> rfl

/-- The service after a `getStatus()` at t = 0 succeeded and populated the
cache (default construction, caching enabled): used to exhibit C7. -/
def svcWarm : Service := (getStatus baseService 0 (.success respDisc)).service

/-- Counterexample to C7 as stated: `getStatus()` does not pass
`skipCache`, so a health tick on a service holding a fresh cached status
entry is served the memoized cached response — zero transport calls — and
delivers the stale `disconnected` payload even though the transport would
have answered `connected`. -/
theorem claim_C7_poller_served_from_cache_cex :
    (healthTick svcWarm 1000 (.success respConn)).req.servedFromCache = true ∧
    (healthTick svcWarm 1000 (.success respConn)).req.transportCalls = 0 ∧
    (healthTick svcWarm 1000 (.success respConn)).req.result = .ok respDisc ∧
    respDisc ≠ respConn := by
  decide

/-- C7 (amended): each health-poll tick invokes the status fetch through
the normal GET path with `skipCache = false` (only `getQR` bypasses the
cache), so whenever caching is enabled and a fresh cache entry for the
status endpoint exists (and the rate check passes), the tick is served the
memoized cached response and makes no transport call. -/
theorem claim_C7_poller_uses_cache :
    (∀ (s : Service) (now : Nat) (tr : TransportResult),
      (healthTick s now tr).req =
        makeRequest s now "/instance/device" "get" "\x7b\x7d" false tr) ∧
    (∀ (s : Service) (now : Nat) (tr : TransportResult) (c : CacheEntry),
      s.cacheEnabled = true →
      mapGet s.cache ("/instance/device" ++ "-" ++ "\x7b\x7d") = some c →
      ¬ now > c.expires →
      (pruneWindow s.requestTimestamps now).length < s.rateLimit →
      (healthTick s now tr).req.servedFromCache = true ∧
      (healthTick s now tr).req.transportCalls = 0 ∧
      (healthTick s now tr).req.result = .ok c.data) := by
  have hreq : ∀ (s : Service) (now : Nat) (tr : TransportResult),
      (healthTick s now tr).req = makeRequest s now "/instance/device" "get" "\x7b\x7d"
        false tr := fun s now tr => healthTick_req s now tr
  refine ⟨hreq, fun s now tr c hc hg hex hlen => ?_⟩
  have hk : (s.cacheEnabled && (jsToLowerCase "get" == "get")) = true := by
    rw [hc]; decide
  rw [hreq s now tr,
    makeRequest_cacheHit s now "/instance/device" "get" "\x7b\x7d" tr c hlen hk hg hex]
  exact ⟨rfl, rfl, rfl⟩

/-- Witness for the amended C7: on the warmed-up service the tick at
t = 1000 ms is served from the cache with zero transport calls. -/
theorem claim_C7_poller_uses_cache_witness :
    (healthTick svcWarm 1000 (.success respConn)).req.transportCalls = 0 ∧
    (healthTick svcWarm 1000 (.success respConn)).req.result = .ok respDisc := by
  have h := claim_C7_poller_uses_cache.2 svcWarm 1000 (.success respConn)
    { data := respDisc, timestamp := 0, expires := 60000 }
    (by decide) (by decide) (by decide) (by decide)
  exact ⟨h.2.1, h.2.2⟩

end Wapi
namespace Wapi

/-- C8: a health-poll tick whose status fetch throws records the error in
`connectionError`, emits an `error` event after the request's own events,
leaves the previously recorded `connected` flag and `connectionStatus`
unchanged, and returns normally — the catch swallows the exception, so
`runTicks` always proceeds to the remaining ticks (shown both by the
unconditional unfolding equation and by a concrete run where the tick
after a failed one still fires its events). -/
theorem claim_C8_failing_tick_frame :
    (∀ (s : Service) (now : Nat) (tr : TransportResult) (e : WErr),
      (healthTick s now tr).req.result = .error e →
      (healthTick s now tr).service.connected = s.connected ∧
      (healthTick s now tr).service.connectionStatus = s.connectionStatus ∧
      (healthTick s now tr).service.connectionError = some e ∧
      (healthTick s now tr).events = (healthTick s now tr).req.events ++ [Event.errorEv e]) ∧
    (∀ (s : Service) (now : Nat) (tr : TransportResult)
       (rest : List (Nat × TransportResult)),
      runTicks s ((now, tr) :: rest) =
        ((runTicks (healthTick s now tr).service rest).1,
         (healthTick s now tr).events ++ (runTicks (healthTick s now tr).service rest).2)) ∧
    (runTicks svcNoCache [(0, .networkError "down"), (60000, .success respConn)]).2 =
      [Event.requestError "/instance/device" "get", Event.errorEv (.connection "down"),
       Event.connectedEv respConn, Event.healthCheck respConn] := by
  refine ⟨?_, ?_, by decide⟩
  · intro s now tr e herr
    rw [healthTick_req s now tr] at herr
    obtain ⟨hc, hst, -⟩ :=
      makeRequest_conn_frame s now "/instance/device" "get" "\x7b\x7d" false tr
    refine ⟨?_, ?_, ?_, ?_⟩
    · simp only [healthTick]
      rw [show (getStatus s now tr).result = Except.error e from herr]
      exact hc
    · simp only [healthTick]
      rw [show (getStatus s now tr).result = Except.error e from herr]
      exact hst
    · simp only [healthTick]
      rw [show (getStatus s now tr).result = Except.error e from herr]
    · rw [healthTick_req s now tr]
      simp only [healthTick]
      rw [show (getStatus s now tr).result = Except.error e from herr]
  · intro s now tr rest
    simp only [runTicks]

/-- Witness for C8: a failing tick on a freshly constructed service keeps
`connected = false` and `connectionStatus = "disconnected"`, and records
the connection error. -/
theorem claim_C8_failing_tick_frame_witness :
    (healthTick svcNoCache 0 (.networkError "down")).service.connected =
      svcNoCache.connected ∧
    (healthTick svcNoCache 0 (.networkError "down")).service.connectionError =
      some (.connection "down") := by
  have h := claim_C8_failing_tick_frame.1 svcNoCache 0 (.networkError "down")
    (.connection "down") (by decide)
  exact ⟨h.1, h.2.2.1⟩

/-- C9: assuming the window respects the bound before the call (as every
reachable state does — the constructor starts it empty), a `_makeRequest`
call leaves the window with at most `rateLimit` timestamps; and when the
pruned window already holds at least `rateLimit` timestamps the call is
rejected — it throws the 429 error — and appends nothing: the window is
exactly the pruned one. -/
theorem claim_C9_window_invariant (s : Service) (now : Nat)
    (endpoint method dataStr : String) (skipCache : Bool) (tr : TransportResult)
    (hinv : s.requestTimestamps.length ≤ s.rateLimit) :
    (makeRequest s now endpoint method dataStr skipCache
        tr).service.requestTimestamps.length ≤ s.rateLimit ∧
    ((pruneWindow s.requestTimestamps now).length ≥ s.rateLimit →
      (makeRequest s now endpoint method dataStr skipCache tr).result =
        .error (.rateLimited
          (((pruneWindow s.requestTimestamps now).headD 0 : Int) + 60000 - (now : Int))) ∧
      (makeRequest s now endpoint method dataStr skipCache tr).service.requestTimestamps =
        pruneWindow s.requestTimestamps now) := by
  have hpr : (pruneWindow s.requestTimestamps now).length ≤ s.requestTimestamps.length :=
    List.length_filter_le _ _
  by_cases h : (pruneWindow s.requestTimestamps now).length ≥ s.rateLimit
  · rw [makeRequest_rejected s now endpoint method dataStr skipCache tr h]
    exact ⟨by simpa using le_trans hpr hinv, fun _ => ⟨rfl, rfl⟩⟩
  · have h' : (pruneWindow s.requestTimestamps now).length < s.rateLimit := by omega
    refine ⟨?_, fun hge => absurd hge h⟩
    have key : ∀ (s2 : Service) (ck : Option String) (lu : Bool),
        s2.requestTimestamps = pruneWindow s.requestTimestamps now →
        s2.rateLimit = s.rateLimit →
        (completePhase (trackRequest s2 now) now endpoint method ck lu
          tr).service.requestTimestamps.length ≤ s.rateLimit := by
      intro s2 ck lu hts hrl
      have hcp :=
        (completePhase_frame (trackRequest s2 now) now endpoint method ck lu tr).1
      rw [hcp]
      show (trackWindow s2.requestTimestamps now s2.rateLimit).length ≤ s.rateLimit
      rw [hts, hrl]
      exact trackWindow_length_le _ _ _ h'
    by_cases hk : (s.cacheEnabled && (jsToLowerCase method == "get")) = true
    · cases skipCache with
      | true =>
        rw [makeRequest_skip s now endpoint method dataStr tr h' hk]
        exact key _ _ _ rfl rfl
      | false =>
        rcases hg : mapGet s.cache (endpoint ++ "-" ++ dataStr) with _ | c
        · rw [makeRequest_cacheMissAbsent s now endpoint method dataStr tr h' hk hg]
          exact key _ _ _ rfl rfl
        · by_cases hex : now > c.expires
          · rw [makeRequest_cacheMissExpired s now endpoint method dataStr tr c h' hk hg hex]
            exact key _ _ _ rfl rfl
          · rw [makeRequest_cacheHit s now endpoint method dataStr tr c h' hk hg hex]
            exact le_of_lt h'
    · rw [makeRequest_nokey s now endpoint method dataStr skipCache tr h'
        (by simpa using hk)]
      exact key _ _ _ rfl rfl

/-- Witness for C9: one timestamp in a `rateLimit = 2` window, a new call
admitted — the window stays within the bound. -/
theorem claim_C9_window_invariant_witness :
    (makeRequest { svcRL2 with requestTimestamps := [0] } 0 "/instance/connect" "post"
        "\x7b\x7d" false (.success respConn)).service.requestTimestamps.length ≤
      ({ svcRL2 with requestTimestamps := [0] } : Service).rateLimit :=
  (claim_C9_window_invariant { svcRL2 with requestTimestamps := [0] } 0
    "/instance/connect" "post" "\x7b\x7d" false (.success respConn) (by decide)).1

/-- C10: a GET served from the cache (caching enabled, fresh entry, no
`skipCache`, rate check passing) returns the cached value, makes no
transport call, appends no timestamp to the rate window (it only keeps the
pruned window), leaves `requestCount` unchanged and leaves the cache map
unchanged. -/
theorem claim_C10_cache_hit_no_quota (s : Service) (now : Nat)
    (endpoint method dataStr : String) (tr : TransportResult) (c : CacheEntry)
    (hc : s.cacheEnabled = true) (hm : jsToLowerCase method = "get")
    (hg : mapGet s.cache (endpoint ++ "-" ++ dataStr) = some c)
    (hex : ¬ now > c.expires)
    (hlen : (pruneWindow s.requestTimestamps now).length < s.rateLimit) :
    (makeRequest s now endpoint method dataStr false tr).result = .ok c.data ∧
    (makeRequest s now endpoint method dataStr false tr).servedFromCache = true ∧
    (makeRequest s now endpoint method dataStr false tr).transportCalls = 0 ∧
    (makeRequest s now endpoint method dataStr false tr).service.requestCount
      = s.requestCount ∧
    (makeRequest s now endpoint method dataStr false tr).service.requestTimestamps
      = pruneWindow s.requestTimestamps now ∧
    (makeRequest s now endpoint method dataStr false tr).service.cache = s.cache := by
  have hk : (s.cacheEnabled && (jsToLowerCase method == "get")) = true := by
    rw [hc, hm]; decide
  rw [makeRequest_cacheHit s now endpoint method dataStr tr c hlen hk hg hex]
  exact ⟨rfl, rfl, rfl, rfl, rfl, rfl⟩

/-- Witness for C10: on the warmed-up service a repeated `getStatus` at
t = 1000 ms is a cache hit — cached value returned, no transport call,
`requestCount` unchanged. -/
theorem claim_C10_cache_hit_no_quota_witness :
    (makeRequest svcWarm 1000 "/instance/device" "get" "\x7b\x7d" false
        (.success respConn)).result = .ok respDisc ∧
    (makeRequest svcWarm 1000 "/instance/device" "get" "\x7b\x7d" false
        (.success respConn)).service.requestCount = svcWarm.requestCount ∧
    (makeRequest svcWarm 1000 "/instance/device" "get" "\x7b\x7d" false
        (.success respConn)).transportCalls = 0 := by
  have h := claim_C10_cache_hit_no_quota svcWarm 1000 "/instance/device" "get" "\x7b\x7d"
    (.success respConn) { data := respDisc, timestamp := 0, expires := 60000 }
    (by decide) (by decide) (by decide) (by decide) (by decide)
  exact ⟨h.1, h.2.2.2.1, h.2.2.1⟩

end Wapi
